import Mathlib

/-!
Shallow embedding of the flask-themes theming add-on
(`flask_themes/__init__.py`, with notes where the `flask_fleem` variant
differs).  Pure functions of the source are translated to Lean functions;
the filesystem, the JSON reader and the host framework's template engine
are abstracted as explicit function-valued environments.  Python strings
are modelled as Lean `String`s and Python dicts as ordered association
lists restricted to the operations the source uses.
-/

namespace FlaskThemes

/-! ### Python dict model (lookup and ordered replace-or-append insert) -/

/-- Lookup in a Python dict, modelled on an association list:
`d[k]` / `d.get(k)` / `k in d`. -/
def dictGet {β : Type} : List (String × β) → String → Option β
  | [], _ => none
  | (k₀, v₀) :: d, k => if k₀ = k then some v₀ else dictGet d k

/-- Python dict assignment `d[k] = v`: replaces the value in place when the
key is present (keeping its position), otherwise appends the new pair. -/
def dictInsert {β : Type} : List (String × β) → String → β → List (String × β)
  | [], k, v => [(k, v)]
  | (k₀, v₀) :: d, k, v =>
    if k₀ = k then (k, v) :: d else (k₀, v₀) :: dictInsert d k v

/-! ### Python string operations, at the character-list level -/

/-- Python slicing `s[n:]` (drop the first `n` characters). -/
def pyDrop (s : String) (n : Nat) : String :=
  String.mk (s.data.drop n)

/-- `beginsWith p s = true` iff the character list `s` begins with `p`. -/
def beginsWith : List Char → List Char → Bool
  | [], _ => true
  | _ :: _, [] => false
  | a :: ps, b :: ss => a == b && beginsWith ps ss

/-- Python `s.startswith(p)`. -/
def pyStartsWith (s p : String) : Bool :=
  beginsWith p.data s.data

/-- Split a character list at the first occurrence of `sep`: returns the
characters before it and, when `sep` occurs, the characters after it. -/
def breakAtChar (sep : Char) : List Char → List Char × Option (List Char)
  | [] => ([], none)
  | c :: cs =>
    if c = sep then ([], some cs)
    else
      let r := breakAtChar sep cs
      (c :: r.1, r.2)

/-- Python `s.split(sep, 1)` used with tuple unpacking
(`a, b = s.split(sep, 1)`): `none` models the `ValueError` raised when
`sep` does not occur in `s`. -/
def pySplit1 (s : String) (sep : Char) : Option (String × String) :=
  match breakAtChar sep s.data with
  | (_, none) => none
  | (a, some b) => some (String.mk a, String.mk b)

/-- Python `s.split(sep, 1)[0]`: everything before the first `sep`, or all
of `s` when `sep` does not occur. -/
def pySplitHead (s : String) (sep : Char) : String :=
  String.mk (s.data.takeWhile (fun c => c ≠ sep))

/-- Python `s.split(sep)` on a character list: every occurrence of `sep`
separates two (possibly empty) fields. -/
def pySplitChar (sep : Char) : List Char → List (List Char)
  | [] => [[]]
  | c :: cs =>
    match pySplitChar sep cs with
    | [] => [[]]
    | g :: gs => if c = sep then [] :: g :: gs else (c :: g) :: gs

/-- Python `s.split(sep)` (single-character separator). -/
def pySplitOn (s : String) (sep : Char) : List String :=
  (pySplitChar sep s.data).map String.mk

/-- The characters Python `str.strip()` removes. -/
def isPyWhitespace (c : Char) : Bool :=
  c = ' ' || c = '\t' || c = '\n' || c = '\r' || c = '\x0b' || c = '\x0c'

/-- Python `s.strip()`. -/
def pyStrip (s : String) : String :=
  String.mk (((s.data.dropWhile isPyWhitespace).reverse.dropWhile isPyWhitespace).reverse)

/-- `os.path.join(a, b)` for a relative second component. -/
def pathJoin (a b : String) : String :=
  a ++ "/" ++ b

/-! ### The `IDENTIFIER` regular expression

`IDENTIFIER = re.compile(r'^[a-zA-Z_][a-zA-Z0-9_]*$')`, used through
`IDENTIFIER.match(b)`.  Python's `$` (without `re.MULTILINE`) matches at
the end of the string *or just before a newline at the end of the string*,
so `IDENTIFIER.match` also accepts an identifier followed by one trailing
newline. -/

/-- A non-empty character list forming `[a-zA-Z_][a-zA-Z0-9_]*`. -/
def isIdentChars : List Char → Bool
  | [] => false
  | c :: cs => (c.isAlpha || c == '_') && cs.all (fun d => d.isAlphanum || d == '_')

/-- Full match of the claimed pattern `[A-Za-z_][A-Za-z0-9_]*` (no
trailing-newline allowance).  This follows the spec's words, for
comparison with the source's matcher. -/
def identifierFullMatch (s : String) : Bool :=
  isIdentChars s.data

/-- Truthiness of `IDENTIFIER.match(s)` in Python: the pattern matches the
whole string, or the whole string minus a single trailing newline. -/
def identifierMatch (s : String) : Bool :=
  isIdentChars s.data ||
    (match s.data.getLast? with
     | some c => c == '\n' && isIdentChars s.data.dropLast
     | none => false)

/-! ### Theme metadata (`class Theme`) -/

/-- A theme's metadata, as read from its `info.json`
(`Theme.__init__`).  String-valued entries of the metadata file are
modelled as `String`; the derived `localized_desc` dictionary and the
free-form `options` map are omitted since no operation of the claims
reads them. -/
structure Theme where
  /-- `self.path = os.path.abspath(path)` (paths are given absolute). -/
  path : String
  /-- `i['name']` (required key). -/
  name : String
  /-- `i['application']` (required key). -/
  application : String
  /-- `i['identifier']` (required key). -/
  identifier : String
  /-- `i.get('description')`. -/
  description : Option String
  /-- `i['author']` (required key). -/
  author : String
  /-- `i.get('license')`. -/
  license : Option String
  /-- `i.get('license_url')`. -/
  license_url : Option String
  /-- `i.get('website')`. -/
  website : Option String
  /-- `i.get('preview')`. -/
  preview : Option String
  /-- `i.get('doctype', 'html5')`. -/
  doctype : String
  deriving DecidableEq, Repr

/-- `Theme.static_path`: `os.path.join(self.path, 'static')`. -/
def Theme.static_path (t : Theme) : String :=
  pathJoin t.path "static"

/-- `Theme.templates_path`: `os.path.join(self.path, 'templates')`. -/
def Theme.templates_path (t : Theme) : String :=
  pathJoin t.path "templates"

/-! ### Filesystem abstraction -/

/-- The filesystem operations the loaders use.  `info p` models opening
and JSON-decoding `<p>/info.json`: `none` when the file is missing or
does not parse (either raises in Python). -/
structure FileSys where
  /-- `os.listdir p`. -/
  listdir : String → List String
  /-- `os.path.isdir p`. -/
  isDir : String → Bool
  /-- `os.path.exists p`. -/
  pathExists : String → Bool
  /-- the decoded `info.json` found at theme directory `p`, if any. -/
  info : String → Option (List (String × String))

/-- `Theme(path)`: read and decode `info.json`, then take the required
keys `name`, `application`, `identifier`, `author` (a missing required
key raises `KeyError`) and the optional keys with their defaults.
`none` models the constructor raising. -/
def themeNew (fs : FileSys) (path : String) : Option Theme := do
  let i ← fs.info path
  let name ← dictGet i "name"
  let application ← dictGet i "application"
  let identifier ← dictGet i "identifier"
  let author ← dictGet i "author"
  pure
    { path := path
      name := name
      application := application
      identifier := identifier
      description := dictGet i "description"
      author := author
      license := dictGet i "license"
      license_url := dictGet i "license_url"
      website := dictGet i "website"
      preview := dictGet i "preview"
      doctype := (dictGet i "doctype").getD "html5" }

/-- `list_folders(path)`: the entries of `path` that are directories. -/
def list_folders (fs : FileSys) (path : String) : List String :=
  (fs.listdir path).filter (fun name => fs.isDir (pathJoin path name))

/-- `load_themes_from(path)`: for each directory entry whose name passes
`IDENTIFIER.match`, try to construct a `Theme`; on any exception skip the
directory, otherwise yield the theme when its identifier equals the
directory's base name. -/
def load_themes_from (fs : FileSys) (path : String) : List Theme :=
  ((list_folders fs path).filter identifierMatch).filterMap fun basename =>
    match themeNew fs (pathJoin path basename) with
    | none => none
    | some t => if t.identifier == basename then some t else none

/-- The scan as the claim words it: the base name must fully match
`[A-Za-z_][A-Za-z0-9_]*` (no trailing-newline allowance).  This follows
the spec's words, for comparison with `load_themes_from`. -/
def load_themes_from_claimed (fs : FileSys) (path : String) : List Theme :=
  ((list_folders fs path).filter identifierFullMatch).filterMap fun basename =>
    match themeNew fs (pathJoin path basename) with
    | none => none
    | some t => if t.identifier == basename then some t else none

/-- `starchain(i) = itertools.chain(*i)`. -/
def starchain {α : Type} (l : List (List α)) : List α :=
  l.flatten

/-- `packaged_themes_loader(app)`: scan `<app.root_path>/themes` when it
exists, else produce nothing. -/
def packaged_themes_loader (fs : FileSys) (root_path : String) : List Theme :=
  let themes_path := pathJoin root_path "themes"
  if fs.pathExists themes_path then load_themes_from fs themes_path else []

/-- The value of `app.config.get('THEME_PATHS', ())`: either a string or
a list of paths (the absent case is the empty list). -/
inductive ThemePathsConfig where
  | str (s : String)
  | list (l : List String)

/-- `theme_paths_loader(app)`: a string configuration value is split on
`';'`, each piece stripped; a list is used as-is.  Every resulting path
is scanned with `load_themes_from` and the results are chained. -/
def theme_paths_loader (fs : FileSys) (cfg : ThemePathsConfig) : List Theme :=
  let theme_paths : List String :=
    match cfg with
    | .str s => (pySplitOn s ';').map pyStrip
    | .list l => l
  starchain (theme_paths.map fun path => load_themes_from fs path)

/-! ### `class ThemeManager` -/

/-- The theme manager's state.  `α` is the type of the bound application;
a loader is, as in the source, a function from the application to a
sequence of candidate themes.  `_themes` is the internal registry slot,
set to `None` by `__init__` until the first refresh. -/
structure ThemeManager (α : Type) where
  /-- `self.app` (set by `bind_app`). -/
  app : α
  /-- `self.app_identifier`. -/
  app_identifier : String
  /-- `self.loaders`. -/
  loaders : List (α → List Theme)
  /-- `self._themes`. -/
  _themes : Option (List (String × Theme))

/-- `ThemeManager.valid_app_id`: exact string comparison with the
configured identifier. -/
def ThemeManager.valid_app_id {α : Type} (tm : ThemeManager α) (app_identifier : String) : Bool :=
  tm.app_identifier == app_identifier

/-- The registry dictionary `refresh` builds: start from `{}`, iterate
the chained loader outputs in order, and store each candidate with a
valid application identifier under its identifier. -/
def refreshRegistry {α : Type} (tm : ThemeManager α) : List (String × Theme) :=
  (starchain (tm.loaders.map fun ldr => ldr tm.app)).foldl
    (fun d t => if tm.valid_app_id t.application then dictInsert d t.identifier t else d) []

/-- `ThemeManager.refresh`: replace `_themes` with the freshly built
registry. -/
def ThemeManager.refresh {α : Type} (tm : ThemeManager α) : ThemeManager α :=
  { tm with _themes := some (refreshRegistry tm) }

/-- The registry currently stored in the manager (empty when `_themes`
is still `None`). -/
def ThemeManager.registry {α : Type} (tm : ThemeManager α) : List (String × Theme) :=
  tm._themes.getD []

/-- The `themes` property: refresh first when `_themes` is `None`, then
return `_themes`.  The result pairs the returned dictionary with the
manager's state after the read. -/
def ThemeManager.themes {α : Type} (tm : ThemeManager α) :
    List (String × Theme) × ThemeManager α :=
  match tm._themes with
  | some r => (r, tm)
  | none => (refreshRegistry tm, tm.refresh)

/-- The manager states reachable in a program: construction
(`__init__` leaves `_themes = None`), explicit `refresh()` calls, and
reads of the `themes` property. -/
inductive Reachable {α : Type} : ThemeManager α → Prop where
  | init (app : α) (app_identifier : String) (loaders : List (α → List Theme)) :
      Reachable ⟨app, app_identifier, loaders, none⟩
  | refreshStep {tm : ThemeManager α} : Reachable tm → Reachable tm.refresh
  | readStep {tm : ThemeManager α} : Reachable tm → Reachable tm.themes.2

/-! ### Template rendering (`render_theme_template`) -/

/-- The exceptions the rendering layer distinguishes:
`jinja2.TemplateNotFound` (carrying the missing template's name) versus
anything else. -/
inductive TplExc where
  | templateNotFound (name : String)
  | other (msg : String)
  deriving DecidableEq, Repr

/-- The host framework's `render_template`, abstracted: given a template
name and the keyword context (values of type `V`), it either returns the
rendered text or raises.  `ofString` injects a Python string (the theme
identifier) into the context-value type. -/
structure RenderEnv (V : Type) where
  ofString : String → V
  render : String → List (String × V) → Except TplExc String

/-- `render_theme_template(theme, template_name, _fallback, **context)`:
set `context['_theme'] = theme`, render the namespaced template
`'_themes/<theme>/<template_name>'`, and on `TemplateNotFound` either
retry once with the unqualified name (when `_fallback` is true) or
re-raise.  `theme` is the theme's identifier (a `Theme` argument is
converted to its identifier before this logic). -/
def render_theme_template {V : Type} (env : RenderEnv V) (theme : String)
    (template_name : String) (fb : Bool) (context : List (String × V)) :
    Except TplExc String :=
  match env.render ("_themes/" ++ theme ++ "/" ++ template_name)
      (dictInsert context "_theme" (env.ofString theme)) with
  | .ok s => .ok s
  | .error (.templateNotFound n) =>
    if fb then
      env.render template_name (dictInsert context "_theme" (env.ofString theme))
    else .error (.templateNotFound n)
  | .error e => .error e

/-! ### The active-theme helper and template-name globals -/

/-- A Jinja render context as `active_theme` reads it: the context's
variables (the values relevant here are theme-identifier strings) and
the name of the template being rendered. -/
structure TemplateContext where
  vars : List (String × String)
  name : String

/-- `active_theme(ctx)`: the `'_theme'` context entry when present, else
the identifier parsed from a `'_themes/'`-namespaced template name, else
a `RuntimeError` (modelled as `.error` with its message). -/
def active_theme (ctx : TemplateContext) : Except String String :=
  match dictGet ctx.vars "_theme" with
  | some v => .ok v
  | none =>
    if pyStartsWith ctx.name "_themes/" then
      .ok (pySplitHead (pyDrop ctx.name 8) '/')
    else
      .error "Could not find the active theme"

/-- `global_theme_template(ctx, templatename, fallback)`.
`tex` abstracts `template_exists` (a query against the application's
Jinja environment). -/
def global_theme_template (tex : String → Bool) (ctx : TemplateContext)
    (templatename : String) (fallback : Bool) : Except String String :=
  match active_theme ctx with
  | .error e => .error e
  | .ok theme =>
    let templatepath := "_themes/" ++ theme ++ "/" ++ templatename
    if !fallback || tex templatepath then .ok templatepath else .ok templatename

/-! ### `ThemeTemplateLoader.get_source` -/

/-- What the themed template loader sees of its surroundings: the current
app's theme registry, and `FileSystemLoader.get_source` abstracted as a
function from a loader root directory and a template name to the source
(`none` models that loader raising `TemplateNotFound`). -/
structure TemplateLoaderEnv where
  themes : List (String × Theme)
  fsGetSource : String → String → Option String

/-- The reassignment of `template` at the top of
`ThemeTemplateLoader.get_source`: in blueprint mode a leading
`'_themes/'` is stripped (`template = template[8:]`). -/
def processedName (as_blueprint : Bool) (template : String) : String :=
  if as_blueprint && pyStartsWith template "_themes/" then pyDrop template 8 else template

/-- The body of `ThemeTemplateLoader.get_source(environment, template)`
after the reassignment: split into theme name and intra-theme path
(`ValueError` when there is no `'/'`), look the theme up in the registry
(`KeyError` when absent), and delegate to the theme's own loader rooted
at its templates directory; each of the three misses is raised as
`TemplateNotFound` carrying the processed template name. -/
def get_source (env : TemplateLoaderEnv) (as_blueprint : Bool) (template : String) :
    Except TplExc String :=
  match pySplit1 (processedName as_blueprint template) '/' with
  | none => .error (.templateNotFound (processedName as_blueprint template))
  | some (themename, templatename) =>
    match dictGet env.themes themename with
    | none => .error (.templateNotFound (processedName as_blueprint template))
    | some theme =>
      match env.fsGetSource theme.templates_path templatename with
      | some src => .ok src
      | none => .error (.templateNotFound (processedName as_blueprint template))

/-! ### The themed static route -/

/-- What the static view sees: the current app's theme registry and the
filesystem's file-existence test (directory, relative filename). -/
structure StaticEnv where
  themes : List (String × Theme)
  fileExists : String → String → Bool

/-- `send_from_directory(directory, filename)`, abstracted: the served
file's path on success, a 404 `NotFound` when the file is missing. -/
def send_from_directory (env : StaticEnv) (directory filename : String) :
    Except Nat String :=
  if env.fileExists directory filename then .ok (pathJoin directory filename)
  else .error 404

/-- The view of `GET /_themes/<themeid>/<path:filename>`: look the theme
up in the registry (`abort(404)` on `KeyError`), then serve the file
from the theme's static directory. -/
def static (env : StaticEnv) (themeid filename : String) : Except Nat String :=
  match dictGet env.themes themeid with
  | none => .error 404
  | some theme => send_from_directory env theme.static_path filename

/-! ## Concrete fixtures used by witnesses and counterexamples -/

/-- A well-formed theme owned by application `"testapp"`. -/
def themeW : Theme :=
  { path := "/apps/themes/cool", name := "Cool Theme", application := "testapp",
    identifier := "cool", description := none, author := "me", license := none,
    license_url := none, website := none, preview := none, doctype := "html5" }

/-- A freshly constructed manager (registry slot still `None`) whose one
loader produces `themeW`. -/
def tmW : ThemeManager Unit :=
  ⟨(), "testapp", [fun _ => [themeW]], none⟩

/-- A filesystem whose one theme directory is named `"a\n"` — an
identifier followed by a trailing newline, which `IDENTIFIER.match`
accepts — with a matching `identifier` entry in its `info.json`. -/
def fsNl : FileSys :=
  { listdir := fun p => if p = "/themes" then ["a\n"] else []
    isDir := fun _ => true
    pathExists := fun _ => true
    info := fun p =>
      if p = "/themes/a\n" then
        some [("name", "A"), ("application", "testapp"), ("identifier", "a\n"),
              ("author", "me")]
      else none }

/-- The theme `load_themes_from` builds from `fsNl`. -/
def themeNl : Theme :=
  { path := "/themes/a\n", name := "A", application := "testapp",
    identifier := "a\n", description := none, author := "me", license := none,
    license_url := none, website := none, preview := none, doctype := "html5" }

/-- A filesystem with one valid theme directory `/x/cool`; the directory
`"/x:/y"` (the undivided colon-joined configuration string) holds
nothing. -/
def fsColon : FileSys :=
  { listdir := fun p => if p = "/x" then ["cool"] else []
    isDir := fun _ => true
    pathExists := fun _ => true
    info := fun p =>
      if p = "/x/cool" then
        some [("name", "Cool"), ("application", "testapp"), ("identifier", "cool"),
              ("author", "me")]
      else none }

/-- The theme found under `/x` in `fsColon`. -/
def themeCool : Theme :=
  { path := "/x/cool", name := "Cool", application := "testapp",
    identifier := "cool", description := none, author := "me", license := none,
    license_url := none, website := none, preview := none, doctype := "html5" }

/-- A template-loader environment with an empty registry. -/
def tlEnvEmpty : TemplateLoaderEnv :=
  { themes := [], fsGetSource := fun _ _ => none }

/-- A template-loader environment whose registry holds `themeW` and whose
filesystem has `hello.html` under that theme's templates directory. -/
def tlEnvCool : TemplateLoaderEnv :=
  { themes := [("cool", themeW)]
    fsGetSource := fun root n =>
      if root = "/apps/themes/cool/templates" && n = "hello.html" then some "themed source"
      else none }

/-- A render environment (string-valued context) in which only the
namespaced `_themes/cool/hello.html` template exists. -/
def renderEnvHit : RenderEnv String :=
  { ofString := fun s => s
    render := fun n _ =>
      if n = "_themes/cool/hello.html" then .ok "themed output"
      else .error (.templateNotFound n) }

/-- A render environment in which only the application's own
`hello.html` exists, so the themed render misses. -/
def renderEnvMiss : RenderEnv String :=
  { ofString := fun s => s
    render := fun n _ =>
      if n = "hello.html" then .ok "default output"
      else .error (.templateNotFound n) }

/-- A static-route environment: registry holds `themeW`, and only
`style.css` exists in its static directory. -/
def staticEnvW : StaticEnv :=
  { themes := [("cool", themeW)]
    fileExists := fun dir n => dir = "/apps/themes/cool/static" && n = "style.css" }

/-! ## Lemmas about the dict model -/

theorem dictGet_dictInsert {β : Type} (d : List (String × β)) (k k' : String) (v : β) :
    dictGet (dictInsert d k v) k' = if k = k' then some v else dictGet d k' := by
  induction d with
  | nil => simp [dictInsert, dictGet]
  | cons p d ih =>
    obtain ⟨k₀, v₀⟩ := p
    by_cases h₀ : k₀ = k
    · subst h₀
      simp only [dictInsert, if_pos rfl]
      by_cases h : k₀ = k' <;> simp [dictGet, h]
    · simp only [dictInsert, if_neg h₀, dictGet, ih]
      by_cases h : k₀ = k'
      · subst h
        have hne : ¬(k = k₀) := fun e => h₀ e.symm
        simp [hne]
      · simp [h]

theorem lastOfCons {α : Type} (a : α) (l : List α) :
    (a :: l).getLast? =
      match l.getLast? with
      | some x => some x
      | none => some a := by
  cases l with
  | nil => rfl
  | cons b m =>
    rw [List.getLast?_cons_cons]
    cases h : (b :: m).getLast? with
    | some x => rfl
    | none => exact absurd (List.getLast?_eq_none_iff.mp h) (by simp)

theorem dictGet_foldl_insert (p : Theme → Bool) (l : List Theme)
    (d : List (String × Theme)) (k : String) :
    dictGet (l.foldl (fun d t => if p t then dictInsert d t.identifier t else d) d) k =
      match (l.filter fun u => p u && u.identifier == k).getLast? with
      | some t => some t
      | none => dictGet d k := by
  induction l generalizing d with
  | nil => rfl
  | cons t l ih =>
    rw [List.foldl_cons]
    cases hp : p t with
    | false =>
      rw [if_neg (by simp [hp]), ih d, List.filter_cons]
      simp [hp]
    | true =>
      rw [if_pos (by simp [hp]), ih (dictInsert d t.identifier t), List.filter_cons]
      cases hk : t.identifier == k with
      | false =>
        have hne : ¬(t.identifier = k) := by simpa using hk
        rw [if_neg (by simp [hp, hk])]
        cases hgl : (l.filter fun u => p u && u.identifier == k).getLast? <;>
          simp [hgl, dictGet_dictInsert, hne]
      | true =>
        have heq : t.identifier = k := by simpa using hk
        rw [if_pos (by simp [hp, hk]), lastOfCons]
        cases hgl : (l.filter fun u => p u && u.identifier == k).getLast? <;>
          simp [hgl, dictGet_dictInsert, heq]

/-! ## Lemmas about `refresh` -/

theorem dictGet_refreshRegistry {α : Type} (tm : ThemeManager α) (k : String) :
    dictGet (refreshRegistry tm) k =
      ((starchain (tm.loaders.map fun ldr => ldr tm.app)).filter
        (fun u => tm.valid_app_id u.application && u.identifier == k)).getLast? := by
  unfold refreshRegistry
  rw [dictGet_foldl_insert]
  cases hgl : ((starchain (tm.loaders.map fun ldr => ldr tm.app)).filter
      (fun u => tm.valid_app_id u.application && u.identifier == k)).getLast? <;>
    simp [dictGet]

theorem iterate_refresh_app_identifier {α : Type} (n : Nat) (tm : ThemeManager α) :
    ((ThemeManager.refresh)^[n] tm).app_identifier = tm.app_identifier := by
  induction n generalizing tm with
  | zero => rfl
  | succ n ih =>
    rw [Function.iterate_succ_apply]
    exact ih tm.refresh

/-! ## Lemmas about the string helpers -/

theorem beginsWith_append (p r : List Char) : beginsWith p (p ++ r) = true := by
  induction p with
  | nil => rfl
  | cons a ps ih => simp [beginsWith, ih]

theorem drop_eight_append (tail : List Char) :
    ("_themes/".data ++ tail).drop 8 = tail := by
  have h := List.drop_left "_themes/".data tail
  rwa [show "_themes/".data.length = 8 from rfl] at h

theorem takeWhile_append_of_stop (p : Char → Bool) (seg rest : List Char)
    (hall : ∀ c ∈ seg, p c = true)
    (hrest : rest = [] ∨ ∃ x xs, rest = x :: xs ∧ p x = false) :
    (seg ++ rest).takeWhile p = seg := by
  induction seg with
  | nil =>
    rcases hrest with h | ⟨x, xs, h, hx⟩
    · subst h; rfl
    · subst h; simp [List.takeWhile_cons, hx]
  | cons c cs ih =>
    have hc : p c = true := hall c (by simp)
    rw [List.cons_append, List.takeWhile_cons, hc]
    simpa using ih fun d hd => hall d (by simp [hd])

/-! ## Claim C1 -/

/-- C1: `refresh()` discards the previous registry entirely (its result
does not depend on the `_themes` slot) and rebuilds it by invoking the
loaders in configured order on the bound app, keeping only candidates
whose declared application identifier passes `valid_app_id`; for every
identifier the stored theme is the *last* kept candidate bearing it in
the flattened loader output, so a candidate produced later — by a later
loader or later in the same loader's sequence — wins every collision. -/
theorem refresh_registry_spec {α : Type} (tm : ThemeManager α)
    (r : Option (List (String × Theme))) (k : String) :
    ({ tm with _themes := r } : ThemeManager α).refresh = tm.refresh ∧
    dictGet tm.refresh.registry k =
      ((starchain (tm.loaders.map fun ldr => ldr tm.app)).filter
        (fun u => tm.valid_app_id u.application && u.identifier == k)).getLast? :=
  ⟨rfl, dictGet_refreshRegistry tm k⟩

/-! ## Claim C2 -/

/-- C2: after any positive number of `refresh()` calls, every theme
stored in the manager's registry has an `application` field exactly
string-equal to the manager's configured `app_identifier`; contrapositively
a theme whose `application` differs is never present. -/
theorem registry_app_id_invariant {α : Type} (n : Nat) (tm : ThemeManager α)
    (k : String) (t : Theme)
    (h : dictGet (((ThemeManager.refresh : ThemeManager α → ThemeManager α))^[n + 1] tm).registry k
           = some t) :
    t.application = tm.app_identifier := by
  rw [Function.iterate_succ_apply'] at h
  set tm' := ((ThemeManager.refresh : ThemeManager α → ThemeManager α))^[n] tm with htm'
  have h2 : dictGet (refreshRegistry tm') k = some t := h
  rw [dictGet_refreshRegistry] at h2
  have hpred := List.of_mem_filter (List.mem_of_mem_getLast? h2)
  simp only [Bool.and_eq_true] at hpred
  have happ : tm'.app_identifier = t.application := by
    simpa [ThemeManager.valid_app_id] using hpred.1
  calc t.application = tm'.app_identifier := happ.symm
    _ = tm.app_identifier := by rw [htm']; exact iterate_refresh_app_identifier n tm

/-- Witness for C2: one refresh of the concrete manager `tmW` stores
`themeW` under `"cool"`, and the theorem yields its application
identifier. -/
theorem registry_app_id_invariant_witness : themeW.application = "testapp" :=
  registry_app_id_invariant 0 tmW "cool" themeW (by decide)

/-! ## Claim C3 -/

/-- C3: `render_theme_template` passes both renders a context whose
`'_theme'` key holds the theme identifier; a successful render of the
namespaced `'_themes/<theme>/<name>'` template is returned as-is; a
`TemplateNotFound` from it leads, when `_fallback` is true, to exactly
one retry rendering the unqualified name, and, when `_fallback` is
false, to the same `TemplateNotFound` propagating unchanged. -/
theorem render_theme_template_spec {V : Type} (env : RenderEnv V) (theme nm : String)
    (fb : Bool) (context : List (String × V)) :
    dictGet (dictInsert context "_theme" (env.ofString theme)) "_theme"
        = some (env.ofString theme) ∧
    (∀ s, env.render ("_themes/" ++ theme ++ "/" ++ nm)
            (dictInsert context "_theme" (env.ofString theme)) = .ok s →
        render_theme_template env theme nm fb context = .ok s) ∧
    (∀ m, env.render ("_themes/" ++ theme ++ "/" ++ nm)
            (dictInsert context "_theme" (env.ofString theme))
          = .error (.templateNotFound m) →
        fb = true →
        render_theme_template env theme nm fb context
          = env.render nm (dictInsert context "_theme" (env.ofString theme))) ∧
    (∀ m, env.render ("_themes/" ++ theme ++ "/" ++ nm)
            (dictInsert context "_theme" (env.ofString theme))
          = .error (.templateNotFound m) →
        fb = false →
        render_theme_template env theme nm fb context = .error (.templateNotFound m)) := by
  refine ⟨?_, ?_, ?_, ?_⟩
  · rw [dictGet_dictInsert]; simp
  · intro s h
    unfold render_theme_template
    rw [h]
  · intro m h hfb
    subst hfb
    unfold render_theme_template
    rw [h]
    simp
  · intro m h hfb
    subst hfb
    unfold render_theme_template
    rw [h]
    simp

/-- Witness for C3: against `renderEnvMiss` the themed template is
missing, and with fallback enabled the application's own `hello.html`
is rendered. -/
theorem render_theme_template_spec_witness :
    render_theme_template renderEnvMiss "cool" "hello.html" true [] = .ok "default output" := by
  have h := (render_theme_template_spec renderEnvMiss "cool" "hello.html" true []).2.2.1
      "_themes/cool/hello.html" rfl rfl
  rw [h]
  rfl

/-! ## Claim C5 -/

/-- C5: `active_theme` returns the `'_theme'` context entry when that
key is present; otherwise, when the context's template name is
`'_themes/' ++ seg ++ rest` with `seg` free of `'/'` and `rest` empty or
starting with `'/'` (that is, `seg` is the path segment between the
prefix and the next slash or the end), it returns `seg`; and it raises
the usage error exactly when the key is absent and the name lacks the
`'_themes/'` namespace. -/
theorem active_theme_spec (ctx : TemplateContext) :
    (∀ v, dictGet ctx.vars "_theme" = some v → active_theme ctx = .ok v) ∧
    (∀ seg rest, dictGet ctx.vars "_theme" = none →
        ctx.name.data = "_themes/".data ++ (seg ++ rest) →
        (∀ c ∈ seg, c ≠ '/') →
        (rest = [] ∨ rest.head? = some '/') →
        active_theme ctx = .ok (String.mk seg)) ∧
    ((∃ e, active_theme ctx = .error e) ↔
        dictGet ctx.vars "_theme" = none ∧ pyStartsWith ctx.name "_themes/" = false) := by
  refine ⟨?_, ?_, ?_⟩
  · intro v h
    unfold active_theme
    rw [h]
  · intro seg rest hnone hname hseg hrest
    have hsw : pyStartsWith ctx.name "_themes/" = true := by
      unfold pyStartsWith
      rw [hname]
      exact beginsWith_append _ _
    have hmain : (seg ++ rest).takeWhile (fun c => decide ¬(c = '/')) = seg := by
      apply takeWhile_append_of_stop
      · intro c hc
        simpa using hseg c hc
      · rcases hrest with h | h
        · exact Or.inl h
        · cases rest with
          | nil => simp at h
          | cons x xs =>
            refine Or.inr ⟨x, xs, rfl, ?_⟩
            have hx : x = '/' := by simpa using h
            subst hx
            decide
    have hsplit : pySplitHead (pyDrop ctx.name 8) '/' = String.mk seg := by
      unfold pyDrop pySplitHead
      rw [show (String.mk (ctx.name.data.drop 8)).data = ctx.name.data.drop 8 from rfl,
        hname, drop_eight_append]
      rw [show (fun c => decide ¬(c = '/')) = fun c => decide (c ≠ '/') from rfl] at hmain
      rw [hmain]
    unfold active_theme
    rw [hnone]
    show (if pyStartsWith ctx.name "_themes/" = true then
            Except.ok (pySplitHead (pyDrop ctx.name 8) '/')
          else Except.error "Could not find the active theme") = Except.ok (String.mk seg)
    rw [if_pos hsw, hsplit]
  · constructor
    · rintro ⟨e, he⟩
      unfold active_theme at he
      cases h : dictGet ctx.vars "_theme" with
      | some v => rw [h] at he; simp at he
      | none =>
        rw [h] at he
        by_cases hs : pyStartsWith ctx.name "_themes/" = true
        · rw [if_pos hs] at he
          simp at he
        · exact ⟨rfl, by simpa using hs⟩
    · rintro ⟨h, hs⟩
      refine ⟨"Could not find the active theme", ?_⟩
      unfold active_theme
      rw [h]
      show (if pyStartsWith ctx.name "_themes/" = true then
              Except.ok (pySplitHead (pyDrop ctx.name 8) '/')
            else Except.error "Could not find the active theme")
          = Except.error "Could not find the active theme"
      rw [if_neg (by simp [hs])]

/-- Witness for C5: inside the themed render of
`_themes/cool/hello.html` with no explicit marker, the helper parses out
`"cool"`. -/
theorem active_theme_spec_witness :
    active_theme ⟨[], "_themes/cool/hello.html"⟩ = .ok "cool" :=
  (active_theme_spec ⟨[], "_themes/cool/hello.html"⟩).2.1 "cool".data "/hello.html".data
    rfl (by decide) (by decide) (Or.inr rfl)

/-! ## Claim C7 -/

/-- C7: the themed static view responds 404 when the theme identifier is
not a registry key, and otherwise serves the file at the theme's static
directory joined with the requested filename, 404 when that file is
missing. -/
theorem static_spec (env : StaticEnv) (themeid filename : String) :
    (dictGet env.themes themeid = none → static env themeid filename = .error 404) ∧
    (∀ t, dictGet env.themes themeid = some t →
        static env themeid filename =
          if env.fileExists t.static_path filename then .ok (pathJoin t.static_path filename)
          else .error 404) := by
  constructor
  · intro h
    unfold static
    rw [h]
  · intro t h
    unfold static send_from_directory
    rw [h]

/-- Witness for C7: the registered theme `"cool"` serves its existing
`style.css` from its static directory. -/
theorem static_spec_witness :
    static staticEnvW "cool" "style.css" = .ok "/apps/themes/cool/static/style.css" := by
  have h := (static_spec staticEnvW "cool" "style.css").2 themeW rfl
  rw [h]
  rfl

/-! ## Claim C9 -/

/-- C9: with fallback disabled `global_theme_template` returns the
namespaced path unconditionally — the result is the same for every
template-existence oracle, so existence is never consulted — while with
fallback enabled it returns the namespaced path exactly when that
template exists and the unqualified name otherwise. -/
theorem global_theme_template_spec (tex tex' : String → Bool) (ctx : TemplateContext)
    (nm : String) :
    (∀ th, active_theme ctx = .ok th →
        global_theme_template tex ctx nm false = .ok ("_themes/" ++ th ++ "/" ++ nm)) ∧
    global_theme_template tex ctx nm false = global_theme_template tex' ctx nm false ∧
    (∀ th, active_theme ctx = .ok th →
        global_theme_template tex ctx nm true =
          if tex ("_themes/" ++ th ++ "/" ++ nm) then .ok ("_themes/" ++ th ++ "/" ++ nm)
          else .ok nm) := by
  refine ⟨?_, ?_, ?_⟩
  · intro th h
    unfold global_theme_template
    rw [h]
    simp
  · unfold global_theme_template
    cases h : active_theme ctx <;> simp
  · intro th h
    unfold global_theme_template
    rw [h]
    cases htex : tex ("_themes/" ++ th ++ "/" ++ nm) <;> simp [htex]

/-- Witness for C9: with fallback disabled the namespaced path comes
back even though the oracle says no template exists at all. -/
theorem global_theme_template_spec_witness :
    global_theme_template (fun _ => false) ⟨[("_theme", "cool")], "x"⟩ "hello.html" false
      = .ok "_themes/cool/hello.html" :=
  (global_theme_template_spec (fun _ => false) (fun _ => true)
    ⟨[("_theme", "cool")], "x"⟩ "hello.html").1 "cool" rfl

/-! ## Claim C4 -/

/-- C4 counterexample: a directory named `"a\n"` (identifier plus
trailing newline) passes `IDENTIFIER.match` — Python's `$` also matches
just before a final newline — so the scan yields its theme although the
base name does not match the claimed pattern `[A-Za-z_][A-Za-z0-9_]*`;
the scan following the claim's words yields nothing there. -/
theorem load_themes_from_cex :
    load_themes_from fsNl "/themes" = [themeNl] ∧
    load_themes_from_claimed fsNl "/themes" = [] ∧
    identifierFullMatch "a\n" = false ∧ identifierMatch "a\n" = true := by
  refine ⟨by decide, by decide, by decide, by decide⟩

/-- C4 (amended): the scan yields exactly the themes of subdirectories
whose base name passes `IDENTIFIER.match` — the pattern
`[A-Za-z_][A-Za-z0-9_]*`, optionally followed by one trailing newline —
whose metadata parses into a `Theme` without error, and whose parsed
identifier equals the base name; a constructor failure skips only its
own directory and never aborts the scan (the characterization of each
yielded theme is independent of the other directories). -/
theorem load_themes_from_spec (fs : FileSys) (path : String) (t : Theme) :
    t ∈ load_themes_from fs path ↔
      ∃ b, b ∈ fs.listdir path ∧ fs.isDir (pathJoin path b) = true ∧
        identifierMatch b = true ∧ themeNew fs (pathJoin path b) = some t ∧
        t.identifier = b := by
  unfold load_themes_from list_folders
  simp only [List.mem_filterMap, List.mem_filter]
  constructor
  · rintro ⟨b, ⟨⟨hb, hdir⟩, hid⟩, hmk⟩
    cases hthm : themeNew fs (pathJoin path b) with
    | none => rw [hthm] at hmk; cases hmk
    | some u =>
      rw [hthm] at hmk
      by_cases hident : u.identifier = b
      · simp only [hident, beq_self_eq_true, if_pos rfl] at hmk
        cases hmk
        exact ⟨b, hb, hdir, hid, hthm, hident⟩
      · simp [hident] at hmk
  · rintro ⟨b, hb, hdir, hid, hthm, hident⟩
    exact ⟨b, ⟨⟨hb, hdir⟩, hid⟩, by rw [hthm]; simp [hident]⟩

/-- Witness for C4: the scan over `fsNl` yields `themeNl`, whose
directory base name is accepted by the source's matcher. -/
theorem load_themes_from_spec_witness : themeNl ∈ load_themes_from fsNl "/themes" :=
  (load_themes_from_spec fsNl "/themes" themeNl).mpr
    ⟨"a\n", by decide, by decide, by decide, by decide, by decide⟩

/-! ## Claim C6 -/

/-- C6 counterexample: in blueprint mode a lookup miss for the requested
name `"_themes/cool/a.html"` raises `TemplateNotFound` carrying the
stripped name `"cool/a.html"`, not the requested name. -/
theorem get_source_cex :
    get_source tlEnvEmpty true "_themes/cool/a.html"
        = .error (.templateNotFound "cool/a.html") ∧
    "cool/a.html" ≠ "_themes/cool/a.html" := by
  refine ⟨rfl, by decide⟩

/-- C6 (amended): every miss of `get_source` — unsplittable name, theme
absent from the registry, or the theme's own loader failing — raises the
same uniform `TemplateNotFound`, never a distinct unknown-theme error;
the exception carries the processed name (the requested name with the
`'_themes/'` prefix stripped when the loader is in blueprint mode and
the name bears that prefix, the requested name itself otherwise); on a
hit the source comes from the theme's own loader rooted at its
templates directory. -/
theorem get_source_spec (env : TemplateLoaderEnv) (ab : Bool) (tpl : String) :
    (∀ e, get_source env ab tpl = .error e →
        e = .templateNotFound (processedName ab tpl)) ∧
    (pySplit1 (processedName ab tpl) '/' = none →
        get_source env ab tpl = .error (.templateNotFound (processedName ab tpl))) ∧
    (∀ tn pn, pySplit1 (processedName ab tpl) '/' = some (tn, pn) →
        dictGet env.themes tn = none →
        get_source env ab tpl = .error (.templateNotFound (processedName ab tpl))) ∧
    (∀ tn pn th, pySplit1 (processedName ab tpl) '/' = some (tn, pn) →
        dictGet env.themes tn = some th →
        get_source env ab tpl =
          match env.fsGetSource th.templates_path pn with
          | some s => .ok s
          | none => .error (.templateNotFound (processedName ab tpl))) := by
  refine ⟨?_, ?_, ?_, ?_⟩
  · intro e he
    unfold get_source at he
    split at he
    · injection he with h
      exact h.symm
    · split at he
      · injection he with h
        exact h.symm
      · split at he
        · cases he
        · injection he with h
          exact h.symm
  · intro hsp
    unfold get_source
    rw [hsp]
  · intro tn pn hsp hth
    unfold get_source
    rw [hsp]
    show (match dictGet env.themes tn with
          | none => Except.error (TplExc.templateNotFound (processedName ab tpl))
          | some theme =>
            match env.fsGetSource theme.templates_path pn with
            | some src => Except.ok src
            | none => Except.error (TplExc.templateNotFound (processedName ab tpl)))
        = Except.error (TplExc.templateNotFound (processedName ab tpl))
    rw [hth]
  · intro tn pn th hsp hth
    unfold get_source
    rw [hsp]
    show (match dictGet env.themes tn with
          | none => Except.error (TplExc.templateNotFound (processedName ab tpl))
          | some theme =>
            match env.fsGetSource theme.templates_path pn with
            | some src => Except.ok src
            | none => Except.error (TplExc.templateNotFound (processedName ab tpl)))
        = match env.fsGetSource th.templates_path pn with
          | some s => Except.ok s
          | none => Except.error (TplExc.templateNotFound (processedName ab tpl))
    rw [hth]

/-- Witness for C6: the blueprint loader resolves
`"_themes/cool/hello.html"` through the registered theme's own loader. -/
theorem get_source_spec_witness :
    get_source tlEnvCool true "_themes/cool/hello.html" = .ok "themed source" := by
  have h := (get_source_spec tlEnvCool true "_themes/cool/hello.html").2.2.2
      "cool" "hello.html" themeW (by decide) rfl
  rw [h]
  rfl

/-! ## Claim C8 -/

/-- C8 counterexample: with `THEME_PATHS = "/x:/y"` the colon is not a
delimiter — the single path scanned is the literal directory `"/x:/y"`,
so the theme sitting under `/x` is missed although scanning `/x`
would find it. -/
theorem theme_paths_loader_cex :
    theme_paths_loader fsColon (.str "/x:/y") = [] ∧
    themeCool ∈ load_themes_from fsColon "/x" ∧
    pySplitOn "/x:/y" ';' = ["/x:/y"] := by
  refine ⟨by decide, by decide, by decide⟩

/-- C8 (amended): a string `THEME_PATHS` is interpreted as a
*semicolon*-delimited list (a colon is not a delimiter), each entry
stripped of surrounding whitespace, and every resulting path is scanned;
a list value (or the absent default, the empty list) has each listed
path scanned as-is. -/
theorem theme_paths_loader_spec (fs : FileSys) (s : String) (l : List String) (t : Theme) :
    (t ∈ theme_paths_loader fs (.str s) ↔
        ∃ p, p ∈ pySplitOn s ';' ∧ t ∈ load_themes_from fs (pyStrip p)) ∧
    (t ∈ theme_paths_loader fs (.list l) ↔
        ∃ p, p ∈ l ∧ t ∈ load_themes_from fs p) := by
  constructor
  · unfold theme_paths_loader starchain
    simp [List.mem_flatten]
  · unfold theme_paths_loader starchain
    simp [List.mem_flatten]

/-- Witness for C8: with the semicolon-delimited string
`" /x ; /nothing"`, the stripped entry `"/x"` is scanned and its theme
found. -/
theorem theme_paths_loader_spec_witness :
    themeCool ∈ theme_paths_loader fsColon (.str " /x ; /nothing") :=
  ((theme_paths_loader_spec fsColon " /x ; /nothing" [] themeCool).1).mpr
    ⟨" /x ", by decide, by decide⟩

/-! ## Claim C10 -/

/-- C10: in every reachable manager state the `themes` property returns
the dictionary a completed `refresh` builds — when `_themes` is still
`None` the very read performs the refresh — so every consumer of the
property observes a refresh-built registry, never an uninitialized
one. -/
theorem themes_property_spec {α : Type} (tm : ThemeManager α) (h : Reachable tm) :
    tm.themes.1 = refreshRegistry tm ∧
    tm.themes.2._themes = some (refreshRegistry tm) ∧
    (tm._themes = none → tm.themes = (refreshRegistry tm, tm.refresh)) := by
  have inv : tm._themes = none ∨ tm._themes = some (refreshRegistry tm) := by
    induction h with
    | init app aid loaders => exact Or.inl rfl
    | refreshStep h ih => exact Or.inr rfl
    | readStep h ih =>
      rename_i tm₀
      rcases ih with h0 | h0
      · right
        show (ThemeManager.themes tm₀).2._themes = _
        simp only [ThemeManager.themes, h0]
        rfl
      · right
        simp [ThemeManager.themes, h0]
  rcases inv with h0 | h0
  · refine ⟨?_, ?_, ?_⟩ <;> simp [ThemeManager.themes, h0, ThemeManager.refresh]
  · refine ⟨?_, ?_, ?_⟩
    · simp [ThemeManager.themes, h0]
    · simp [ThemeManager.themes, h0]
    · intro hn
      rw [h0] at hn
      cases hn

/-- Witness for C10: reading `themes` on the freshly constructed `tmW`
(registry slot `None`) returns the refresh-built dictionary. -/
theorem themes_property_spec_witness : tmW.themes.1 = refreshRegistry tmW :=
  (themes_property_spec tmW (Reachable.init () "testapp" [fun _ => [themeW]])).1

end FlaskThemes
